import Mathlib

/-!
Verification development for the MIS-MCBS frontend (src/frontend/src/App.js).

The file shallowly embeds the client-side query/pagination/filter state
machine of the `App` component and the submit/error-handling logic of its
modal components, and proves or refutes the specified properties about them.

Conventions of the embedding:
  - React `useState` fields relevant to the students view are collected in
    `AppState`; each state setter or handler in the source becomes a pure
    function from state to state (plus explicit outputs for alerts and
    re-issued loads).
  - JS strings are Lean `String`s; JS string truthiness (`if (searchTerm)`)
    is `≠ ""`; the JS `||` fallback on strings is `jsOr`.
  - JS numbers used here are integers, modelled as `Int`.
  - network outcomes are explicit result values (`CreateResult`,
    `RequestResult`), since the source only branches on success vs caught
    error and on the optional structured `detail` field.
-/

/-- Pagination state, App.js line 31: `useState({ skip: 0, limit: 20 })`. -/
structure Pagination where
  skip : Int
  limit : Int
deriving DecidableEq, Repr

/-- The `useState` fields of `App` that the students view reads and writes
(App.js lines 18-32): the three filter inputs, the pagination window, the
displayed students page (abstracted to a list of record identifiers) and the
total count, plus the add-student dialog flag. -/
structure AppState where
  searchTerm : String
  filterGrade : String
  filterStatus : String
  pagination : Pagination
  students : List String
  totalStudents : Int
  showAddStudent : Bool
deriving DecidableEq, Repr

/-- Initial values of the hooks (App.js lines 19-32). -/
def initialAppState : AppState :=
  { searchTerm := ""
    filterGrade := ""
    filterStatus := ""
    pagination := { skip := 0, limit := 20 }
    students := []
    totalStudents := 0
    showAddStudent := false }

/-- Filter input handler, App.js line 321: `setSearchTerm(e.target.value)`.
Only the search term changes. -/
def setSearchTerm (v : String) (s : AppState) : AppState :=
  { s with searchTerm := v }

/-- Grade filter handler, App.js line 326: `setFilterGrade(e.target.value)`. -/
def setFilterGrade (v : String) (s : AppState) : AppState :=
  { s with filterGrade := v }

/-- Status filter handler, App.js line 336: `setFilterStatus(e.target.value)`. -/
def setFilterStatus (v : String) (s : AppState) : AppState :=
  { s with filterStatus := v }

/-- App.js lines 150-155: `resetFilters` clears the three filters and sets
pagination back to `{skip: 0, limit: 20}`. -/
def resetFilters (s : AppState) : AppState :=
  { s with
    searchTerm := ""
    filterGrade := ""
    filterStatus := ""
    pagination := { skip := 0, limit := 20 } }

/-- App.js lines 157-159: `nextPage` sets `skip := skip + limit`. -/
def nextPage (s : AppState) : AppState :=
  { s with pagination :=
    { s.pagination with skip := s.pagination.skip + s.pagination.limit } }

/-- App.js lines 161-163: `prevPage` sets `skip := Math.max(0, skip - limit)`. -/
def prevPage (s : AppState) : AppState :=
  { s with pagination :=
    { s.pagination with skip := max 0 (s.pagination.skip - s.pagination.limit) } }

/-- One user-driven state operation on the students view. -/
inductive Op where
  | search (v : String)
  | grade (v : String)
  | status (v : String)
  | reset
  | next
  | prev
deriving DecidableEq, Repr

/-- Dispatch of one operation to the corresponding handler of the source. -/
def applyOp (s : AppState) : Op → AppState
  | .search v => setSearchTerm v s
  | .grade v => setFilterGrade v s
  | .status v => setFilterStatus v s
  | .reset => resetFilters s
  | .next => nextPage s
  | .prev => prevPage s

/-- Sequential application of a list of operations. -/
def runOps (s : AppState) (ops : List Op) : AppState :=
  ops.foldl applyOp s

/-- Query parameters built by `loadStudents` (App.js lines 51-58): a
`URLSearchParams` seeded with `skip` and `limit`, with `search`,
`grade_level` and `status` appended only when the corresponding state string
is truthy (non-empty). The parameter list keeps insertion order. -/
def loadStudentsParams (s : AppState) : List (String × String) :=
  [("skip", toString s.pagination.skip), ("limit", toString s.pagination.limit)]
    ++ (if s.searchTerm ≠ "" then [("search", s.searchTerm)] else [])
    ++ (if s.filterGrade ≠ "" then [("grade_level", s.filterGrade)] else [])
    ++ (if s.filterStatus ≠ "" then [("status", s.filterStatus)] else [])

/-- One resolved page/count response pair for a students load: the page of
student identifiers returned by `GET /students` and the count returned by
`GET /students/count`. -/
structure LoadResponse where
  page : List String
  count : Int
deriving DecidableEq, Repr

/-- Commit of one resolved students load (App.js lines 65-66):
`setStudents(studentsResponse.data); setTotalStudents(countResponse.data.count)`.
The source applies every resolved response unconditionally — there is no
request token or staleness check. -/
def commitLoadResponse (s : AppState) (r : LoadResponse) : AppState :=
  { s with students := r.page, totalStudents := r.count }

/-- State after a sequence of load responses resolve, in resolution order.
Each resolution commits via `commitLoadResponse`, exactly as in the source. -/
def commitResponses (s : AppState) (rs : List LoadResponse) : AppState :=
  rs.foldl commitLoadResponse s

/-- Outcome of a backend create call as the handlers observe it: either the
awaited request succeeded, or an error was caught carrying the optional
structured `error.response.data.detail` and the generic `error.message`. -/
inductive CreateResult where
  | success
  | failure (detail : Option String) (message : String)
deriving DecidableEq, Repr

/-- JS `a || b` on an optional string `a`: an absent or empty (falsy) detail
falls back to the message. Models `error.response?.data?.detail || error.message`. -/
def jsOr (detail : Option String) (message : String) : String :=
  match detail with
  | some s => if s = "" then message else s
  | none => message

/-- Result of running one of the mutation handlers of `App`: the new
component state, the alert text shown to the user (if any), and whether the
handler re-issued the students (or entity) load. -/
structure HandlerResult where
  state : AppState
  alerted : Option String
  reloadIssued : Bool
deriving DecidableEq, Repr

/-- App.js lines 106-115, `handleAddStudent`: awaits `POST /students`; on
success it closes the add-student dialog and calls `loadStudents()`; on a
caught error it alerts `'Error adding student: ' + (detail || message)` and
changes nothing else. -/
def handleAddStudent (s : AppState) (r : CreateResult) : HandlerResult :=
  match r with
  | .success => { state := { s with showAddStudent := false }, alerted := none, reloadIssued := true }
  | .failure d m =>
    { state := s, alerted := some ("Error adding student: " ++ jsOr d m), reloadIssued := false }

/-- Outcome of a delete request: success, or a caught error with a message. -/
inductive RequestResult where
  | success
  | failure (message : String)
deriving DecidableEq, Repr

/-- App.js lines 139-148, `handleDeleteStudent`: after a `window.confirm`,
awaits `DELETE /students/{id}`; on success it calls `loadStudents()`; on a
caught error it only logs (`console.error`) — no alert, no reload. When the
confirmation is declined, no request is issued at all. -/
def handleDeleteStudent (s : AppState) (confirmed : Bool) (r : RequestResult) : HandlerResult :=
  if confirmed then
    match r with
    | .success => { state := s, alerted := none, reloadIssued := true }
    | .failure _ => { state := s, alerted := none, reloadIssued := false }
  else { state := s, alerted := none, reloadIssued := false }

/-- Form buffer of `AddStudentModal` (App.js lines 582-595). -/
structure StudentFormData where
  student_id : String
  first_name : String
  last_name : String
  email : String
  phone : String
  date_of_birth : String
  gender : String
  grade_level : String
  address : String
  parent_name : String
  parent_email : String
  parent_phone : String
deriving DecidableEq, Repr

/-- Default student form record (App.js lines 582-595): all fields empty
except `gender: 'male'` and `grade_level: 'Grade 1'`. -/
def studentFormDefault : StudentFormData :=
  { student_id := "", first_name := "", last_name := "", email := "", phone := ""
    date_of_birth := "", gender := "male", grade_level := "Grade 1", address := ""
    parent_name := "", parent_email := "", parent_phone := "" }

/-- Form buffer of `AddTeacherModal` (App.js lines 795-802). -/
structure TeacherFormData where
  teacher_id : String
  first_name : String
  last_name : String
  email : String
  phone : String
  subject_specialization : String
deriving DecidableEq, Repr

/-- Default teacher form record (App.js lines 795-802): all fields empty. -/
def teacherFormDefault : TeacherFormData :=
  { teacher_id := "", first_name := "", last_name := "", email := "", phone := ""
    subject_specialization := "" }

/-- Form buffer of `AddCourseModal` (App.js lines 922-928); `credit_hours`
is kept as the raw input text, `grade_levels` as the selected list. -/
structure CourseFormData where
  course_code : String
  course_name : String
  description : String
  credit_hours : String
  grade_levels : List String
deriving DecidableEq, Repr

/-- Default course form record (App.js lines 922-928). -/
def courseFormDefault : CourseFormData :=
  { course_code := "", course_name := "", description := "", credit_hours := ""
    grade_levels := [] }

/-- Combined observable outcome of submitting a creation form: the value of
the form buffer afterwards, whether the dialog is still open, the alert
shown (if any), and whether the entity list was reloaded. Combines the
modal's `handleSubmit` (which resets the buffer) with the corresponding
`App` handler (which closes the dialog / alerts). -/
structure SubmitOutcome (F : Type) where
  formData : F
  isOpen : Bool
  alerted : Option String
  reloadIssued : Bool
deriving DecidableEq, Repr

/-- Submission flow of `AddStudentModal` (App.js lines 597-614 combined with
lines 106-115): `handleSubmit` calls `onSubmit(formData)` and then — without
awaiting the async handler, hence on success and failure alike — resets the
buffer via `setFormData({...defaults})`; `handleAddStudent` closes the
dialog and reloads on success, or alerts on failure. -/
def addStudentSubmitFlow (formData : StudentFormData) (r : CreateResult) :
    SubmitOutcome StudentFormData :=
  { formData := studentFormDefault
    isOpen := match r with | .success => false | .failure _ _ => true
    alerted := match r with
      | .success => none
      | .failure d m => some ("Error adding student: " ++ jsOr d m)
    reloadIssued := match r with | .success => true | .failure _ _ => false }

/-- Submission flow of `AddTeacherModal` (App.js lines 804-815 combined with
lines 117-126): identical shape to the student flow; the buffer resets
unconditionally in the modal's `handleSubmit`. -/
def addTeacherSubmitFlow (formData : TeacherFormData) (r : CreateResult) :
    SubmitOutcome TeacherFormData :=
  { formData := teacherFormDefault
    isOpen := match r with | .success => false | .failure _ _ => true
    alerted := match r with
      | .success => none
      | .failure d m => some ("Error adding teacher: " ++ jsOr d m)
    reloadIssued := match r with | .success => true | .failure _ _ => false }

/-- Submission flow of `AddCourseModal` (App.js lines 930-944 combined with
lines 128-137): `handleSubmit` builds the submit payload (coercing
`credit_hours`), calls `onSubmit`, then unconditionally resets the buffer. -/
def addCourseSubmitFlow (formData : CourseFormData) (r : CreateResult) :
    SubmitOutcome CourseFormData :=
  { formData := courseFormDefault
    isOpen := match r with | .success => false | .failure _ _ => true
    alerted := match r with
      | .success => none
      | .failure d m => some ("Error adding course: " ++ jsOr d m)
    reloadIssued := match r with | .success => true | .failure _ _ => false }

/-- App.js lines 946-951, `handleGradeLevelChange`: toggling a grade in the
course grade-levels multi-select removes it when present
(`filter(g => g !== grade)`) and appends it at the end when absent. -/
def handleGradeLevelChange (grade_levels : List String) (grade : String) : List String :=
  if grade ∈ grade_levels then
    grade_levels.filter (fun g => g ≠ grade)
  else
    grade_levels ++ [grade]

/-- Derived pagination presentation of the students view. -/
structure PaginationView where
  windowStart : Int
  windowEnd : Int
  total : Int
  prevDisabled : Bool
  nextDisabled : Bool
deriving DecidableEq, Repr

/-- App.js lines 423-443: the pagination footer shows
"Showing {skip + 1} to {Math.min(skip + limit, totalStudents)} of
{totalStudents}", disables Previous when `skip === 0` and Next when
`skip + limit >= totalStudents`. All five values are recomputed from the
current state on each render. -/
def renderPagination (p : Pagination) (totalStudents : Int) : PaginationView :=
  { windowStart := p.skip + 1
    windowEnd := min (p.skip + p.limit) totalStudents
    total := totalStudents
    prevDisabled := decide (p.skip = 0)
    nextDisabled := decide (totalStudents ≤ p.skip + p.limit) }

/-! ## Theorems -/

/-- C1 counterexample: a filter change made while the students view is
active does not reset `skip` to 0. Starting from the initial state, one
`nextPage` gives `skip = 20`; changing the search term to `"ann"` leaves
`skip = 20`, and the query issued afterwards carries `skip = 20`, not 0. -/
theorem C1_counterexample :
    (setSearchTerm "ann" (nextPage initialAppState)).pagination.skip = 20 ∧
    ("skip", "20") ∈ loadStudentsParams (setSearchTerm "ann" (nextPage initialAppState)) ∧
    (20 : Int) ≠ 0 := by
  refine ⟨rfl, by decide, by decide⟩

/-- C1 amended: a change to the search term, grade filter, or status filter
leaves the pagination — both `skip` and `limit` — completely unchanged; only
the limit-unchanged half of the claim holds, and the reactive load after a
filter change is issued with the pre-change `skip`. -/
theorem C1_filter_change_keeps_pagination (s : AppState) (v : String) :
    (setSearchTerm v s).pagination = s.pagination ∧
    (setFilterGrade v s).pagination = s.pagination ∧
    (setFilterStatus v s).pagination = s.pagination :=
  ⟨rfl, rfl, rfl⟩

/-- C4 counterexample: toggling `"Grade 1"` twice in the list
`["Grade 1", "Grade 2"]` yields `["Grade 2", "Grade 1"]` — the membership is
restored but the insertion order is not: the toggled value moves to the end. -/
theorem C4_counterexample :
    handleGradeLevelChange (handleGradeLevelChange ["Grade 1", "Grade 2"] "Grade 1") "Grade 1" =
      ["Grade 2", "Grade 1"] ∧
    (["Grade 2", "Grade 1"] : List String) ≠ ["Grade 1", "Grade 2"] := by
  constructor
  · rfl
  · decide

/-- C4 amended: toggling the same grade twice restores the original
membership, but not in general the original order: when the grade was
present the double toggle removes it from its position and re-appends it at
the end (`l.filter (· ≠ g) ++ [g]`); the exact original list is recovered
only when the grade was absent. -/
theorem C4_toggle_twice (l : List String) (g : String) :
    (∀ x, x ∈ handleGradeLevelChange (handleGradeLevelChange l g) g ↔ x ∈ l) ∧
    handleGradeLevelChange (handleGradeLevelChange l g) g =
      (if g ∈ l then l.filter (fun x => x ≠ g) ++ [g] else l) := by
  by_cases h : g ∈ l
  · have hfirst : handleGradeLevelChange l g = l.filter (fun x => x ≠ g) := by
      simp [handleGradeLevelChange, h]
    have hnot : g ∉ l.filter (fun x => x ≠ g) := by
      simp [List.mem_filter]
    have hsecond :
        handleGradeLevelChange (l.filter (fun x => x ≠ g)) g =
          l.filter (fun x => x ≠ g) ++ [g] := by
      simp [handleGradeLevelChange, hnot]
    refine ⟨?_, ?_⟩
    · intro x
      rw [hfirst, hsecond]
      simp only [List.mem_append, List.mem_filter, List.mem_singleton]
      constructor
      · rintro (⟨hx, _⟩ | rfl)
        · exact hx
        · exact h
      · intro hx
        by_cases hxg : x = g
        · exact Or.inr hxg
        · exact Or.inl ⟨hx, by simpa using hxg⟩
    · rw [hfirst, hsecond, if_pos h]
  · have hfirst : handleGradeLevelChange l g = l ++ [g] := by
      simp [handleGradeLevelChange, h]
    have hmem : g ∈ l ++ [g] := by simp
    have hfilter : (l ++ [g]).filter (fun x => x ≠ g) = l := by
      rw [List.filter_append]
      have h1 : l.filter (fun x => x ≠ g) = l := by
        rw [List.filter_eq_self]
        intro a ha
        simp only [decide_eq_true_eq]
        intro hag
        exact h (hag ▸ ha)
      have h2 : ([g] : List String).filter (fun x => x ≠ g) = [] := by simp
      rw [h1, h2, List.append_nil]
    have hsecond : handleGradeLevelChange (l ++ [g]) g = l := by
      simp only [handleGradeLevelChange]
      rw [if_pos hmem]
      exact hfilter
    refine ⟨?_, ?_⟩
    · intro x
      rw [hfirst, hsecond]
    · rw [hfirst, hsecond, if_neg h]

/-- C7: `resetFilters` restores the initial query state exactly — all three
filter fields empty, pagination back to `{skip: 0, limit: 20}` — so the
query parameters produced afterwards are exactly `skip=0, limit=20` with no
filter keys, regardless of the prior state. -/
theorem C7_resetFilters_restores_initial (s : AppState) :
    (resetFilters s).searchTerm = "" ∧
    (resetFilters s).filterGrade = "" ∧
    (resetFilters s).filterStatus = "" ∧
    (resetFilters s).pagination = { skip := 0, limit := 20 } ∧
    loadStudentsParams (resetFilters s) = [("skip", "0"), ("limit", "20")] := by
  refine ⟨rfl, rfl, rfl, rfl, ?_⟩
  simp only [loadStudentsParams, resetFilters]
  decide

/-- C9: the pagination footer is a pure function of `(skip, limit, totalCount)`:
Next is disabled exactly when `skip + limit ≥ totalCount`, Previous exactly
when `skip = 0`, and the window runs from `skip + 1` to
`min (skip + limit) totalCount` of `totalCount`. With totalCount 45 and
limit 20, two `nextPage` calls reach `skip = 40`, window 41 to 45 of 45 with
Next disabled; with totalCount 0 the window is 1 to 0 of 0. -/
theorem C9_pagination_view (p : Pagination) (t : Int) :
    ((renderPagination p t).nextDisabled = true ↔ t ≤ p.skip + p.limit) ∧
    ((renderPagination p t).prevDisabled = true ↔ p.skip = 0) ∧
    (renderPagination p t).windowStart = p.skip + 1 ∧
    (renderPagination p t).windowEnd = min (p.skip + p.limit) t ∧
    (renderPagination p t).total = t ∧
    (runOps initialAppState [Op.next, Op.next]).pagination.skip = 40 ∧
    renderPagination (runOps initialAppState [Op.next, Op.next]).pagination 45 =
      { windowStart := 41, windowEnd := 45, total := 45,
        prevDisabled := false, nextDisabled := true } ∧
    renderPagination initialAppState.pagination 0 =
      { windowStart := 1, windowEnd := 0, total := 0,
        prevDisabled := true, nextDisabled := true } := by
  refine ⟨?_, ?_, rfl, rfl, rfl, by decide, by decide, by decide⟩
  · simp [renderPagination]
  · simp [renderPagination]

/-- Helper: every entry of `loadStudentsParams` whose key is one of the
three filter keys carries the corresponding (non-empty) filter value. -/
theorem loadStudentsParams_filter_entries (s : AppState) :
    ∀ kv ∈ loadStudentsParams s,
      (kv.1 = "search" ∨ kv.1 = "grade_level" ∨ kv.1 = "status") → kv.2 ≠ "" := by
  intro kv hkv hkey
  have hsplit :
      kv ∈ [(("skip" : String), toString s.pagination.skip),
            ("limit", toString s.pagination.limit)] ∨
      kv ∈ (if s.searchTerm ≠ "" then [(("search" : String), s.searchTerm)] else []) ∨
      kv ∈ (if s.filterGrade ≠ "" then [(("grade_level" : String), s.filterGrade)] else []) ∨
      kv ∈ (if s.filterStatus ≠ "" then [(("status" : String), s.filterStatus)] else []) := by
    simpa [loadStudentsParams, List.mem_append, or_assoc] using hkv
  rcases hsplit with hb | hs | hg | hst
  · simp only [List.mem_cons, List.not_mem_nil, or_false] at hb
    rcases hb with rfl | rfl <;> rcases hkey with h | h | h <;> simp at h
  · by_cases hc : s.searchTerm ≠ ""
    · rw [if_pos hc] at hs
      simp only [List.mem_singleton] at hs
      subst hs
      exact hc
    · rw [if_neg hc] at hs
      exact absurd hs (List.not_mem_nil kv)
  · by_cases hc : s.filterGrade ≠ ""
    · rw [if_pos hc] at hg
      simp only [List.mem_singleton] at hg
      subst hg
      exact hc
    · rw [if_neg hc] at hg
      exact absurd hg (List.not_mem_nil kv)
  · by_cases hc : s.filterStatus ≠ ""
    · rw [if_pos hc] at hst
      simp only [List.mem_singleton] at hst
      subst hst
      exact hc
    · rw [if_neg hc] at hst
      exact absurd hst (List.not_mem_nil kv)

/-- C6: for every state reachable by any sequence of operations on the
students view, the query parameter list built by `loadStudents` always
carries the keys `skip` and `limit`, and never carries a `search`,
`grade_level` or `status` entry whose value is the empty string (absent
filters are omitted entirely). -/
theorem C6_no_empty_filter_params (ops : List Op) :
    (∃ v, ("skip", v) ∈ loadStudentsParams (runOps initialAppState ops)) ∧
    (∃ v, ("limit", v) ∈ loadStudentsParams (runOps initialAppState ops)) ∧
    ∀ kv ∈ loadStudentsParams (runOps initialAppState ops),
      (kv.1 = "search" ∨ kv.1 = "grade_level" ∨ kv.1 = "status") → kv.2 ≠ "" := by
  refine ⟨⟨toString (runOps initialAppState ops).pagination.skip, ?_⟩,
    ⟨toString (runOps initialAppState ops).pagination.limit, ?_⟩,
    loadStudentsParams_filter_entries _⟩
  · simp [loadStudentsParams]
  · simp [loadStudentsParams]

/-- Helper: each single operation preserves the pagination invariant
`0 ≤ skip ∧ 0 < limit`. -/
theorem applyOp_pagination_invariant (s : AppState) (op : Op)
    (h : 0 ≤ s.pagination.skip ∧ 0 < s.pagination.limit) :
    0 ≤ (applyOp s op).pagination.skip ∧ 0 < (applyOp s op).pagination.limit := by
  cases op <;>
    simp only [applyOp, setSearchTerm, setFilterGrade, setFilterStatus, resetFilters,
      nextPage, prevPage] <;>
    omega

/-- Helper: the pagination invariant holds after any operation sequence
starting from a state that satisfies it. -/
theorem runOps_pagination_invariant (ops : List Op) (s : AppState)
    (h : 0 ≤ s.pagination.skip ∧ 0 < s.pagination.limit) :
    0 ≤ (runOps s ops).pagination.skip ∧ 0 < (runOps s ops).pagination.limit := by
  induction ops generalizing s with
  | nil => exact h
  | cons op rest ih => exact ih (applyOp s op) (applyOp_pagination_invariant s op h)

/-- C8: for every operation sequence from the initial state, `skip` stays a
non-negative integer and `limit` stays positive; and at a reachable state
with `skip = 0`, `prevPage` leaves `skip = 0`. -/
theorem C8_skip_nonneg_limit_pos (ops : List Op) :
    0 ≤ (runOps initialAppState ops).pagination.skip ∧
    0 < (runOps initialAppState ops).pagination.limit ∧
    ((runOps initialAppState ops).pagination.skip = 0 →
      (prevPage (runOps initialAppState ops)).pagination.skip = 0) := by
  have h := runOps_pagination_invariant ops initialAppState (by decide)
  refine ⟨h.1, h.2, ?_⟩
  intro h0
  simp only [prevPage]
  omega

/-- C8 witness: at the initial state itself (`skip = 0`), the invariant holds
and `prevPage` leaves `skip = 0`. -/
theorem C8_witness :
    (runOps initialAppState []).pagination.skip = 0 ∧
    (prevPage (runOps initialAppState [])).pagination.skip = 0 :=
  ⟨by decide, (C8_skip_nonneg_limit_pos []).2.2 (by decide)⟩

/-- C2: the source has no staleness guard, so a stale in-flight pair CAN
overwrite the state committed by a newer pair. Failing trace: request 1
(older) and request 2 (newer) are both in flight; request 2's page/count
pair resolves first and commits `(["S-NEW"], 1)`, then request 1's stale
pair resolves and commits `(["S-OLD-1", "S-OLD-2"], 57)` — the final state
holds the stale request's page and count, not the most recently issued
request's. -/
theorem C2_stale_response_overwrites :
    commitResponses initialAppState
        [{ page := ["S-NEW"], count := 1 },
         { page := ["S-OLD-1", "S-OLD-2"], count := 57 }] =
      { initialAppState with students := ["S-OLD-1", "S-OLD-2"], totalStudents := 57 } ∧
    (commitResponses initialAppState
        [{ page := ["S-NEW"], count := 1 },
         { page := ["S-OLD-1", "S-OLD-2"], count := 57 }]).students ≠ ["S-NEW"] := by
  constructor
  · rfl
  · decide

/-- C3 counterexample: submitting the add-student form with a non-default
buffer and a failing create does NOT keep the buffer intact — the modal's
`handleSubmit` resets it to the default record without awaiting the
(failing) handler. -/
theorem C3_counterexample :
    (addStudentSubmitFlow
        { studentFormDefault with student_id := "S-123", first_name := "Ann" }
        (CreateResult.failure (some "Student ID already exists") "Request failed")).formData ≠
      { studentFormDefault with student_id := "S-123", first_name := "Ann" } := by
  decide

/-- C3 amended: for all three creation forms, a failed submission leaves the
dialog open and surfaces an error while a successful one closes it silently —
but the form buffer resets to its default record on EVERY submission,
success or failure alike, because the modal resets it without awaiting the
async create handler. -/
theorem C3_submit_flow (sf : StudentFormData) (tf : TeacherFormData) (cf : CourseFormData)
    (r : CreateResult) :
    (addStudentSubmitFlow sf r).formData = studentFormDefault ∧
    ((addStudentSubmitFlow sf r).isOpen = false ↔ r = CreateResult.success) ∧
    ((addStudentSubmitFlow sf r).alerted = none ↔ r = CreateResult.success) ∧
    (addTeacherSubmitFlow tf r).formData = teacherFormDefault ∧
    ((addTeacherSubmitFlow tf r).isOpen = false ↔ r = CreateResult.success) ∧
    ((addTeacherSubmitFlow tf r).alerted = none ↔ r = CreateResult.success) ∧
    (addCourseSubmitFlow cf r).formData = courseFormDefault ∧
    ((addCourseSubmitFlow cf r).isOpen = false ↔ r = CreateResult.success) ∧
    ((addCourseSubmitFlow cf r).alerted = none ↔ r = CreateResult.success) := by
  cases r <;>
    simp [addStudentSubmitFlow, addTeacherSubmitFlow, addCourseSubmitFlow]

/-- C5: a create-student call failing with a non-empty structured detail
surfaces exactly that detail in the alert text (appended to the fixed
handler label), issues no reload, and returns the component state — students
list, total count, filters, pagination, dialog flag — completely unchanged.
The handler catches the error, so nothing escapes. -/
theorem C5_create_failure_surfaces_detail (s : AppState) (d m : String) (h : d ≠ "") :
    (handleAddStudent s (CreateResult.failure (some d) m)).state = s ∧
    (handleAddStudent s (CreateResult.failure (some d) m)).alerted =
      some ("Error adding student: " ++ d) ∧
    (handleAddStudent s (CreateResult.failure (some d) m)).reloadIssued = false := by
  refine ⟨rfl, ?_, rfl⟩
  simp only [handleAddStudent, jsOr, if_neg h]

/-- C5 witness: the documented example detail "Student ID already exists" is
surfaced verbatim and the state is untouched. -/
theorem C5_witness :
    ("Student ID already exists" : String) ≠ "" ∧
    ((handleAddStudent initialAppState
        (CreateResult.failure (some "Student ID already exists") "Request failed")).state =
          initialAppState ∧
      (handleAddStudent initialAppState
        (CreateResult.failure (some "Student ID already exists") "Request failed")).alerted =
          some ("Error adding student: " ++ "Student ID already exists") ∧
      (handleAddStudent initialAppState
        (CreateResult.failure (some "Student ID already exists") "Request failed")).reloadIssued =
          false) :=
  ⟨by decide,
    C5_create_failure_surfaces_detail initialAppState "Student ID already exists"
      "Request failed" (by decide)⟩

/-- C10: a confirmed delete whose request fails shows no alert, issues no
reload, and leaves the component state exactly as it was; the students load
is re-issued exactly when the delete was confirmed and succeeded; and —
unlike delete failures — a create failure does alert the user. -/
theorem C10_delete_failure_silent (s : AppState) (c : Bool) (r : RequestResult)
    (m d msg : String) :
    handleDeleteStudent s c (RequestResult.failure m) =
      { state := s, alerted := none, reloadIssued := false } ∧
    ((handleDeleteStudent s c r).reloadIssued = true ↔
      (c = true ∧ r = RequestResult.success)) ∧
    (handleDeleteStudent s c r).state = s ∧
    (handleDeleteStudent s c r).alerted = none ∧
    (handleAddStudent s (CreateResult.failure (some d) msg)).alerted.isSome = true := by
  cases c <;> cases r <;>
    simp [handleDeleteStudent, handleAddStudent]
